import Mathlib

/-!
Verification of `llvmlite/binding/module.py`: the lifetime/ownership glue
between Python handles and the native LLVM toolkit.

The Python file under scrutiny defines `parse_assembly`, `ModuleRef`
(with `__str__`, `get_function`, `get_global_variable`, `verify`,
`data_layout`, `triple`, `link_in`, `global_variables`) and
`_GlobalsIterator`.  The native `LLVMPY_*` entry points, and the
`ffi.ObjectRef` / `ffi.OutputString` / `link_modules` helpers that the
file imports, live outside the given source; those are modelled from the
specification (each such definition carries a doc comment saying so).

The embedding is a state-passing one: `NativeState` is the set of live
native objects, Python handles are records carrying an optional native
address (`none` once disposed/detached, per the spec's NativeHandle
invariant), and each Python operation is a Lean function from the handle
and state to an `Except Err` result (plus the successor state for the
operations that allocate, mutate or dispose).
-/

namespace LLMod

/-- Error taxonomy of the spec (§7): parse failure, verifier failure,
lookup miss (`NameError` in the source), use-after-free on a dead handle,
and the generic non-empty-output-buffer signal. -/
inductive Err where
  | irParseError (msg : String)
  | verificationError (msg : String)
  | symbolNotFound (nm : String)
  | useAfterFree
  | nativeError (msg : String)
  deriving DecidableEq, Repr

/-- Contents of a native module object, abstracted to what the surface
under verification observes: its data layout and triple strings and the
named function and global-variable symbol lists. -/
structure NativeModule where
  dataLayout : String
  triple : String
  functions : List String
  globals : List String
  deriving DecidableEq, Repr

/-- Native pointer identity of a value (function or global) inside a
module object: each symbol is a distinct native object, identified here
by the owning native module's address and the symbol's slot. -/
inductive VPtr where
  | funcPtr (moduleAddr idx : Nat)
  | globalPtr (moduleAddr idx : Nat)
  deriving DecidableEq, Repr

/-- State of a native global-variable cursor: which module object it
walks and the next slot it will yield. -/
structure IterState where
  moduleAddr : Nat
  pos : Nat
  deriving DecidableEq, Repr

/-- Association-list lookup on `Nat` keys (first match wins). -/
def lookupA {α : Type} : List (Nat × α) → Nat → Option α
  | [], _ => none
  | p :: rest, a => if p.1 = a then some p.2 else lookupA rest a

/-- Remove every entry with the given key. -/
def removeA {α : Type} : List (Nat × α) → Nat → List (Nat × α)
  | [], _ => []
  | p :: rest, a =>
      if p.1 = a then removeA rest a else p :: removeA rest a

/-- Replace the value at the first entry with the given key, leaving the
list unchanged when the key is absent. -/
def updateA {α : Type} : List (Nat × α) → Nat → α → List (Nat × α)
  | [], _, _ => []
  | p :: rest, a, y =>
      if p.1 = a then (a, y) :: rest else p :: updateA rest a y

/-- The live native objects: module objects and global-variable cursors
keyed by address, the addresses whose disposal was requested while still
borrowed (deferred, see `ModuleRef.close`), and a fresh-address counter. -/
structure NativeState where
  modules : List (Nat × NativeModule)
  iters : List (Nat × IterState)
  pending : List Nat
  counter : Nat
  deriving DecidableEq, Repr

/-- Whether some live native cursor borrows the module object at `a`. -/
def NativeState.hasLiveIterOn (s : NativeState) (a : Nat) : Bool :=
  s.iters.any (fun p => p.2.moduleAddr == a)

/-- The empty native world. -/
def NativeState.init : NativeState := ⟨[], [], [], 0⟩

/-- Behaviour of the external native toolkit (LLVM behind the `LLVMPY_*`
wrappers), abstracted: the parser's outcome on a text (the module object
it allocates, if any, and the error message written to the output buffer,
empty on success), the verifier's diagnostic (empty when the module is
well formed), the linker's failure message (none on success), the merge
of a source module into a destination, and the textual rendering. -/
structure Toolkit where
  parseResult : String → Option NativeModule × String
  verifyMsg : NativeModule → String
  linkErr : NativeModule → NativeModule → Option String
  merge : NativeModule → NativeModule → NativeModule
  render : NativeModule → String

/-- Native symbol lookup inside a module object: the slot of the first
symbol carrying the given name, or none (a null pointer) on a miss. -/
def findSym : List String → String → Option Nat
  | [], _ => none
  | f :: rest, nm =>
      if f = nm then some 0 else (findSym rest nm).map (· + 1)

/-- Python-side module handle (`ModuleRef(ffi.ObjectRef)`): per the spec's
NativeHandle invariant the address is cleared on disposal or detach. -/
structure ModuleRef where
  address : Option Nat
  deriving DecidableEq, Repr

/-- Modelled from the spec: `ffi.ObjectRef`'s per-use liveness check is
not part of the given source; the spec states that after disposal any
further operation on the handle fails with `UseAfterFree`. -/
def ModuleRef.checkLive (m : ModuleRef) : Except Err Nat :=
  match m.address with
  | some a => .ok a
  | none => .error .useAfterFree

/-- Modelled from the spec: `ffi.ObjectRef.close` is not in the given
source.  Disposal clears the address; the native deallocation runs at
most once, and — per the spec's ordering guarantee — is deferred while a
live cursor still borrows the module object, completing only when the
last borrowing cursor is released. -/
def ModuleRef.close (s : NativeState) (m : ModuleRef) : NativeState × ModuleRef :=
  match m.address with
  | none => (s, ⟨none⟩)
  | some a =>
      if s.hasLiveIterOn a then
        ({ s with pending := a :: s.pending }, ⟨none⟩)
      else
        ({ s with modules := removeA s.modules a }, ⟨none⟩)

/-- Modelled from the spec: `ffi.ObjectRef.detach` is not in the given
source.  Detaching invalidates the handle (address cleared) without
running the native deallocation — the native object was consumed by the
operation that detached it. -/
def ModuleRef.detach (_m : ModuleRef) : ModuleRef := ⟨none⟩

/-- Python-side global-variable iterator handle (`_GlobalsIterator`):
the native cursor's address plus the stored back-reference to the
owning `ModuleRef` (`self._module`, kept to build yielded `ValueRef`s
and to keep the module alive). -/
structure GlobalsIterator where
  address : Option Nat
  modref : ModuleRef
  deriving DecidableEq, Repr

/-- Python-side `ValueRef(p, module=...)`: a non-owning view carrying the
native value pointer and the back-reference to the owning module handle. -/
structure ValueRef where
  ptr : VPtr
  modref : ModuleRef
  deriving DecidableEq, Repr

/-- `parse_assembly(llvmir)`: calls the native parser against the global
context through the owned-OutputString protocol, wraps the returned
object in a `ModuleRef`, and on a populated error buffer closes that
(possibly partially constructed) module before raising
`RuntimeError("LLVM IR parsing error\n" + errmsg)`.  The allocation of
the native object returned by `LLVMPY_ParseAssembly` is modelled as
registering the toolkit's parse outcome at a fresh address (a null
return wraps to an already-dead handle). -/
def parse_assembly (tk : Toolkit) (s : NativeState) (llvmir : String) :
    Except Err ModuleRef × NativeState :=
  let pr := tk.parseResult llvmir
  let alloc : ModuleRef × NativeState :=
    match pr.1 with
    | some nm =>
        (⟨some s.counter⟩,
         { s with modules := (s.counter, nm) :: s.modules,
                  counter := s.counter + 1 })
    | none => (⟨none⟩, s)
  let m := alloc.1
  let s1 := alloc.2
  if pr.2 = "" then (.ok m, s1)
  else
    let closed := ModuleRef.close s1 m
    (.error (.irParseError ("LLVM IR parsing error\n" ++ pr.2)), closed.1)

/-- `ModuleRef.__str__`: renders the module via
`LLVMPY_PrintModuleToString` through the owned-OutputString protocol. -/
def ModuleRef.render (tk : Toolkit) (s : NativeState) (m : ModuleRef) :
    Except Err String :=
  match m.checkLive with
  | .error e => .error e
  | .ok a =>
      match lookupA s.modules a with
      | none => .error .useAfterFree
      | some nm => .ok (tk.render nm)

/-- `ModuleRef.get_function(name)`: `LLVMPY_GetNamedFunction` returns the
symbol's pointer or null; null raises `NameError(name)`
(`SymbolNotFound`), a found pointer is wrapped as `ValueRef(p, self)`. -/
def ModuleRef.get_function (s : NativeState) (m : ModuleRef) (nm : String) :
    Except Err ValueRef :=
  match m.checkLive with
  | .error e => .error e
  | .ok a =>
      match lookupA s.modules a with
      | none => .error .useAfterFree
      | some md =>
          match findSym md.functions nm with
          | none => .error (.symbolNotFound nm)
          | some i => .ok ⟨.funcPtr a i, m⟩

/-- `ModuleRef.get_global_variable(name)`: same shape as
`get_function`, over `LLVMPY_GetNamedGlobalVariable`. -/
def ModuleRef.get_global_variable (s : NativeState) (m : ModuleRef)
    (nm : String) : Except Err ValueRef :=
  match m.checkLive with
  | .error e => .error e
  | .ok a =>
      match lookupA s.modules a with
      | none => .error .useAfterFree
      | some md =>
          match findSym md.globals nm with
          | none => .error (.symbolNotFound nm)
          | some i => .ok ⟨.globalPtr a i, m⟩

/-- Modelled from the spec: the `LLVMPY_VerifyModule` wrapper is not in
the given source; per the output-buffer protocol the verifier populates
the buffer exactly when verification fails, and the wrapper's boolean
result signals that failure. -/
def LLVMPY_VerifyModule (tk : Toolkit) (nm : NativeModule) : Bool × String :=
  (tk.verifyMsg nm != "", tk.verifyMsg nm)

/-- `ModuleRef.verify()`: raises `RuntimeError(str(outmsg))` when the
native verifier call signals failure. -/
def ModuleRef.verify (tk : Toolkit) (s : NativeState) (m : ModuleRef) :
    Except Err Unit :=
  match m.checkLive with
  | .error e => .error e
  | .ok a =>
      match lookupA s.modules a with
      | none => .error .useAfterFree
      | some nm =>
          let r := LLVMPY_VerifyModule tk nm
          if r.1 then .error (.verificationError r.2) else .ok ()

/-- `ModuleRef.data_layout` getter: copies the string out of the
borrowed (not owned) output buffer filled by `LLVMPY_GetDataLayout`. -/
def ModuleRef.data_layout (s : NativeState) (m : ModuleRef) :
    Except Err String :=
  match m.checkLive with
  | .error e => .error e
  | .ok a =>
      match lookupA s.modules a with
      | none => .error .useAfterFree
      | some nm => .ok nm.dataLayout

/-- `ModuleRef.data_layout` setter: `LLVMPY_SetDataLayout` with the
encoded string. -/
def ModuleRef.setDataLayout (s : NativeState) (m : ModuleRef)
    (strrep : String) : Except Err Unit × NativeState :=
  match m.checkLive with
  | .error e => (.error e, s)
  | .ok a =>
      match lookupA s.modules a with
      | none => (.error .useAfterFree, s)
      | some nm =>
          (.ok (),
           { s with modules :=
               updateA s.modules a { nm with dataLayout := strrep } })

/-- `ModuleRef.triple` getter: copies the string out of the borrowed
output buffer filled by `LLVMPY_GetTarget`. -/
def ModuleRef.triple (s : NativeState) (m : ModuleRef) :
    Except Err String :=
  match m.checkLive with
  | .error e => .error e
  | .ok a =>
      match lookupA s.modules a with
      | none => .error .useAfterFree
      | some nm => .ok nm.triple

/-- `ModuleRef.triple` setter: `LLVMPY_SetTarget` with the encoded
string. -/
def ModuleRef.setTriple (s : NativeState) (m : ModuleRef)
    (strrep : String) : Except Err Unit × NativeState :=
  match m.checkLive with
  | .error e => (.error e, s)
  | .ok a =>
      match lookupA s.modules a with
      | none => (.error .useAfterFree, s)
      | some nm =>
          (.ok (),
           { s with modules :=
               updateA s.modules a { nm with triple := strrep } })

/-- Modelled from the spec: `link_modules` (from `linker.py`) is not in
the given source.  It merges `other`'s contents into `self` via the
native linker; on failure it raises with the linker's message and leaves
both modules undisturbed; on success with `preserve=false` the native
source object is consumed by the link. -/
def link_modules (tk : Toolkit) (s : NativeState) (dst src : ModuleRef)
    (preserve : Bool) : Except Err Unit × NativeState :=
  match dst.checkLive with
  | .error e => (.error e, s)
  | .ok da =>
      match src.checkLive with
      | .error e => (.error e, s)
      | .ok sa =>
          match lookupA s.modules da, lookupA s.modules sa with
          | some dm, some sm =>
              match tk.linkErr dm sm with
              | some msg => (.error (.nativeError msg), s)
              | none =>
                  let s1 :=
                    { s with modules := updateA s.modules da (tk.merge dm sm) }
                  if preserve then (.ok (), s1)
                  else (.ok (), { s1 with modules := removeA s1.modules sa })
          | _, _ => (.error .useAfterFree, s)

/-- `ModuleRef.link_in(other, preserve)`: runs `link_modules` and, only
when that returned (no exception) and `preserve` is false, detaches
`other`.  The possibly-detached `other` handle is returned alongside. -/
def ModuleRef.link_in (tk : Toolkit) (s : NativeState)
    (self other : ModuleRef) (preserve : Bool) :
    Except Err ModuleRef × NativeState :=
  match link_modules tk s self other preserve with
  | (.error e, s1) => (.error e, s1)
  | (.ok _, s1) =>
      if preserve then (.ok other, s1)
      else (.ok other.detach, s1)

/-- `ModuleRef.global_variables`: `LLVMPY_ModuleGlobalIter` allocates a
fresh native cursor over the module's globals, wrapped as
`_GlobalsIterator(gi, module=self)`. -/
def ModuleRef.global_variables (s : NativeState) (m : ModuleRef) :
    Except Err GlobalsIterator × NativeState :=
  match m.checkLive with
  | .error e => (.error e, s)
  | .ok a =>
      match lookupA s.modules a with
      | none => (.error .useAfterFree, s)
      | some _ =>
          (.ok ⟨some s.counter, m⟩,
           { s with iters := (s.counter, ⟨a, 0⟩) :: s.iters,
                    counter := s.counter + 1 })

/-- `_GlobalsIterator.__next__`: `LLVMPY_GlobalIterNext` advances the
native cursor and returns the next global's pointer, or null once
exhausted (null keeps being returned thereafter); a non-null pointer is
wrapped as `ValueRef(vp, self._module)`, null raises `StopIteration`
(modelled as `none`). -/
def GlobalsIterator.next (s : NativeState) (it : GlobalsIterator) :
    Except Err (Option ValueRef) × NativeState :=
  match it.address with
  | none => (.error .useAfterFree, s)
  | some ia =>
      match lookupA s.iters ia with
      | none => (.error .useAfterFree, s)
      | some ist =>
          match lookupA s.modules ist.moduleAddr with
          | none => (.error .useAfterFree, s)
          | some nm =>
              if ist.pos < nm.globals.length then
                (.ok (some ⟨.globalPtr ist.moduleAddr ist.pos, it.modref⟩),
                 { s with iters :=
                     updateA s.iters ia ⟨ist.moduleAddr, ist.pos + 1⟩ })
              else (.ok none, s)

/-- Modelled from the spec: `_GlobalsIterator`'s disposal entry point
(`ffi.ObjectRef.close` calling `_dispose`, i.e.
`LLVMPY_DisposeGlobalIter`) is not in the given source.  Releasing the
cursor drops the borrow on its module; if that module's own disposal was
deferred and no other cursor still borrows it, the module's native
deallocation completes now. -/
def GlobalsIterator.close (s : NativeState) (it : GlobalsIterator) :
    NativeState × GlobalsIterator :=
  match it.address with
  | none => (s, ⟨none, it.modref⟩)
  | some ia =>
      match lookupA s.iters ia with
      | none => (s, ⟨none, it.modref⟩)
      | some ist =>
          let s1 := { s with iters := removeA s.iters ia }
          let a := ist.moduleAddr
          if s1.pending.contains a && !(s1.hasLiveIterOn a) then
            ({ s1 with modules := removeA s1.modules a,
                       pending := s1.pending.filter (fun b => b != a) },
             ⟨none, it.modref⟩)
          else (s1, ⟨none, it.modref⟩)

/-- Repeatedly call `GlobalsIterator.next` up to `fuel` times, collecting
the yielded values in order and stopping at exhaustion or error (this is
what Python's `for` loop does with the iterator, `StopIteration` ending
the loop). -/
def drainIter (s : NativeState) (it : GlobalsIterator) :
    Nat → List ValueRef × NativeState
  | 0 => ([], s)
  | fuel + 1 =>
      match GlobalsIterator.next s it with
      | (.ok (some v), s1) =>
          let r := drainIter s1 it fuel
          (v :: r.1, r.2)
      | (.ok none, s1) => ([], s1)
      | (.error _, s1) => ([], s1)

/-- The sequence of `ValueRef`s a cursor on module object `a` yields when
advanced `k` times starting at slot `p`. -/
def gvList (mr : ModuleRef) (a : Nat) : Nat → Nat → List ValueRef
  | _, 0 => []
  | p, k + 1 => ⟨.globalPtr a p, mr⟩ :: gvList mr a (p + 1) k

/-! ### Concrete sample data (used to instantiate the general theorems) -/

/-- An empty native module object. -/
def mdlEmpty : NativeModule := ⟨"", "", [], []⟩

/-- A sample module with two functions and three globals. -/
def mdlA : NativeModule :=
  ⟨"e-m:e-i64:64", "x86_64-unknown-linux-gnu", ["fa", "fb"], ["ga", "gb", "gc"]⟩

/-- A second sample module. -/
def mdlB : NativeModule := ⟨"e", "armv7-unknown-linux", ["fc"], ["gd"]⟩

/-- A toolkit on which every native operation succeeds. -/
def tkNeutral : Toolkit :=
  ⟨fun _ => (some mdlA, ""), fun _ => "", fun _ _ => none,
   fun d _ => d, fun _ => "; ModuleID"⟩

/-- A toolkit whose parser always fails, still allocating an empty module
object and writing a diagnostic to the error buffer. -/
def tkBadParse : Toolkit :=
  ⟨fun _ => (some mdlEmpty, "expected top-level entity"), fun _ => "",
   fun _ _ => none, fun d _ => d, fun _ => ""⟩

/-- A toolkit whose verifier reports a diagnostic on every module. -/
def tkBadVerify : Toolkit :=
  ⟨fun _ => (some mdlA, ""), fun _ => "invalid linkage type",
   fun _ _ => none, fun d _ => d, fun _ => ""⟩

/-- A toolkit whose linker fails on every pair of modules. -/
def tkBadLink : Toolkit :=
  ⟨fun _ => (some mdlA, ""), fun _ => "",
   fun _ _ => some "linking global variables with mismatching types",
   fun d _ => d, fun _ => ""⟩

/-- A state holding the single live module object `mdlA` at address 0. -/
def stA : NativeState := ⟨[(0, mdlA)], [], [], 1⟩

/-- A state holding `mdlA` at address 0 and `mdlB` at address 1. -/
def stAB : NativeState := ⟨[(0, mdlA), (1, mdlB)], [], [], 2⟩

/-- A live handle on the module object at address 0. -/
def mrefA : ModuleRef := ⟨some 0⟩

/-- A live handle on the module object at address 1. -/
def mrefB : ModuleRef := ⟨some 1⟩

/-! ### Association-list lemmas -/

theorem lookupA_updateA_self {α : Type} (l : List (Nat × α)) (a : Nat)
    (x y : α) (h : lookupA l a = some x) :
    lookupA (updateA l a y) a = some y := by
  induction l with
  | nil => simp [lookupA] at h
  | cons p rest ih =>
      by_cases hb : p.1 = a
      · simp [lookupA, updateA, hb]
      · simp only [lookupA, updateA, if_neg hb] at h ⊢
        exact ih h

theorem lookupA_updateA_ne {α : Type} (l : List (Nat × α)) (a b : Nat)
    (y : α) (h : b ≠ a) :
    lookupA (updateA l a y) b = lookupA l b := by
  induction l with
  | nil => simp [lookupA, updateA]
  | cons p rest ih =>
      by_cases hc : p.1 = a
      · simp [updateA, hc, lookupA, Ne.symm h]
      · simp only [updateA, if_neg hc, lookupA]
        by_cases hcb : p.1 = b
        · rw [if_pos hcb, if_pos hcb]
        · rw [if_neg hcb, if_neg hcb, ih]

theorem updateA_self_eq {α : Type} (l : List (Nat × α)) (a : Nat) (y : α)
    (h : lookupA l a = some y) : updateA l a y = l := by
  induction l with
  | nil => simp [lookupA] at h
  | cons p rest ih =>
      by_cases hb : p.1 = a
      · simp only [lookupA, if_pos hb, Option.some.injEq] at h
        simp only [updateA, if_pos hb]
        rw [← hb, ← h]
      · simp only [lookupA, if_neg hb] at h
        simp [updateA, if_neg hb, ih h]

theorem updateA_updateA {α : Type} (l : List (Nat × α)) (a : Nat)
    (x y : α) : updateA (updateA l a x) a y = updateA l a y := by
  induction l with
  | nil => simp [updateA]
  | cons p rest ih =>
      by_cases hb : p.1 = a
      · simp [updateA, hb]
      · simp [updateA, if_neg hb, ih]

theorem lookupA_removeA_self {α : Type} (l : List (Nat × α)) (a : Nat) :
    lookupA (removeA l a) a = none := by
  induction l with
  | nil => simp [removeA, lookupA]
  | cons p rest ih =>
      by_cases hb : p.1 = a
      · simpa [removeA, hb] using ih
      · simp only [removeA, if_neg hb, lookupA, if_neg hb]
        exact ih

theorem lookupA_removeA_ne {α : Type} (l : List (Nat × α)) (a b : Nat)
    (h : b ≠ a) : lookupA (removeA l a) b = lookupA l b := by
  induction l with
  | nil => simp [removeA, lookupA]
  | cons p rest ih =>
      by_cases hc : p.1 = a
      · simp only [removeA, if_pos hc, lookupA]
        rw [if_neg (fun hcb : p.1 = b => h (hcb.symm.trans hc))]
        exact ih
      · simp only [removeA, if_neg hc, lookupA]
        by_cases hcb : p.1 = b
        · rw [if_pos hcb, if_pos hcb]
        · rw [if_neg hcb, if_neg hcb, ih]

theorem removeA_of_lookupA_none {α : Type} (l : List (Nat × α)) (a : Nat)
    (h : lookupA l a = none) : removeA l a = l := by
  induction l with
  | nil => simp [removeA]
  | cons p rest ih =>
      by_cases hb : p.1 = a
      · simp [lookupA, if_pos hb] at h
      · simp only [lookupA, if_neg hb] at h
        simp [removeA, if_neg hb, ih h]

theorem any_removeA_false {α : Type} (l : List (Nat × α)) (c : Nat)
    (p : Nat × α → Bool) (h : l.any p = false) :
    (removeA l c).any p = false := by
  induction l with
  | nil => simp [removeA]
  | cons q rest ih =>
      simp only [List.any_cons, Bool.or_eq_false_iff] at h
      by_cases hb : q.1 = c
      · simp only [removeA, if_pos hb]
        exact ih h.2
      · simp only [removeA, if_neg hb, List.any_cons, Bool.or_eq_false_iff]
        exact ⟨h.1, ih h.2⟩

/-! ### Cursor-sequence lemmas -/

theorem gvList_length (mr : ModuleRef) (a : Nat) :
    ∀ (k p : Nat), (gvList mr a p k).length = k := by
  intro k
  induction k with
  | zero => intro p; simp [gvList]
  | succ k ih => intro p; simp [gvList, ih]

theorem gvList_mem_idx (mr : ModuleRef) (a : Nat) :
    ∀ (k p : Nat) (v : ValueRef), v ∈ gvList mr a p k →
      ∃ i, p ≤ i ∧ v = ⟨.globalPtr a i, mr⟩ := by
  intro k
  induction k with
  | zero => intro p v hv; simp [gvList] at hv
  | succ k ih =>
      intro p v hv
      simp only [gvList, List.mem_cons] at hv
      cases hv with
      | inl h => exact ⟨p, le_refl p, h⟩
      | inr h =>
          obtain ⟨i, hpi, hi⟩ := ih (p + 1) v h
          exact ⟨i, by omega, hi⟩

theorem gvList_nodup (mr : ModuleRef) (a : Nat) :
    ∀ (k p : Nat), (gvList mr a p k).Nodup := by
  intro k
  induction k with
  | zero => intro p; simp [gvList]
  | succ k ih =>
      intro p
      simp only [gvList, List.nodup_cons]
      refine ⟨fun hmem => ?_, ih (p + 1)⟩
      obtain ⟨i, hpi, hi⟩ := gvList_mem_idx mr a k (p + 1) _ hmem
      have hpi2 : p = i := by
        have h2 := congrArg ValueRef.ptr hi
        simp at h2
        exact h2
      omega

/-- Main drain lemma: a live cursor at slot `p` over the module object at
`a`, advanced `length - p` times, yields exactly the remaining globals in
order and leaves every other native object untouched. -/
theorem drainIter_spec (it : GlobalsIterator) (ia a : Nat)
    (md : NativeModule) (hadr : it.address = some ia) :
    ∀ (k p : Nat) (s : NativeState),
      lookupA s.iters ia = some ⟨a, p⟩ →
      lookupA s.modules a = some md →
      p + k = md.globals.length →
      drainIter s it k =
        (gvList it.modref a p k,
         { s with iters := updateA s.iters ia ⟨a, md.globals.length⟩ }) := by
  intro k
  induction k with
  | zero =>
      intro p s hit hmod hlen
      have hp : p = md.globals.length := by omega
      subst hp
      rw [updateA_self_eq s.iters ia ⟨a, md.globals.length⟩ hit]
      simp [drainIter, gvList]
  | succ k ih =>
      intro p s hit hmod hlen
      have hlt : p < md.globals.length := by omega
      have hnext : GlobalsIterator.next s it =
          (.ok (some ⟨.globalPtr a p, it.modref⟩),
           { s with iters := updateA s.iters ia ⟨a, p + 1⟩ }) := by
        simp [GlobalsIterator.next, hadr, hit, hmod, hlt]
      have hih := ih (p + 1) { s with iters := updateA s.iters ia ⟨a, p + 1⟩ }
        (lookupA_updateA_self s.iters ia ⟨a, p⟩ ⟨a, p + 1⟩ hit)
        hmod (by omega)
      simp only [drainIter, hnext, hih, gvList]
      rw [updateA_updateA]

/-! ### Symbol-lookup lemmas -/

theorem findSym_none_of_not_mem :
    ∀ (l : List String) (nm : String), nm ∉ l → findSym l nm = none := by
  intro l nm h
  induction l with
  | nil => simp [findSym]
  | cons f rest ih =>
      simp only [List.mem_cons, not_or] at h
      have hf : ¬f = nm := fun e => h.1 e.symm
      simp [findSym, hf, ih h.2]

theorem findSym_some_mem :
    ∀ (l : List String) (nm : String) (i : Nat),
      findSym l nm = some i → l[i]? = some nm := by
  intro l
  induction l with
  | nil => intro nm i h; simp [findSym] at h
  | cons f rest ih =>
      intro nm i h
      by_cases hf : f = nm
      · simp only [findSym, if_pos hf] at h
        simp only [Option.some.injEq] at h
        subst h
        simp [hf]
      · simp only [findSym, if_neg hf, Option.map_eq_some'] at h
        obtain ⟨j, hj, hij⟩ := h
        subst hij
        simpa using ih nm j hj

/-! ### Claim theorems -/

/-- C1: every operation in a `ModuleRef`'s surface (verify, function and
global lookup, the global-variable cursor request, textual rendering and
the layout/triple accessors) fails with `UseAfterFree` on a handle that
has been disposed, without reaching the native call (the native state is
left untouched by the attempts). -/
theorem c1_disposed_handle_fails_use_after_free (tk : Toolkit)
    (s s0 : NativeState) (m : ModuleRef) (nm : String) (str : String) :
    ModuleRef.verify tk s ((ModuleRef.close s0 m).2) = .error .useAfterFree ∧
    ModuleRef.get_function s ((ModuleRef.close s0 m).2) nm =
      .error .useAfterFree ∧
    ModuleRef.get_global_variable s ((ModuleRef.close s0 m).2) nm =
      .error .useAfterFree ∧
    ModuleRef.global_variables s ((ModuleRef.close s0 m).2) =
      (.error .useAfterFree, s) ∧
    ModuleRef.render tk s ((ModuleRef.close s0 m).2) = .error .useAfterFree ∧
    ModuleRef.data_layout s ((ModuleRef.close s0 m).2) =
      .error .useAfterFree ∧
    ModuleRef.triple s ((ModuleRef.close s0 m).2) = .error .useAfterFree ∧
    ModuleRef.setDataLayout s ((ModuleRef.close s0 m).2) str =
      (.error .useAfterFree, s) ∧
    ModuleRef.setTriple s ((ModuleRef.close s0 m).2) str =
      (.error .useAfterFree, s) := by
  have hc : (ModuleRef.close s0 m).2 = ⟨none⟩ := by
    unfold ModuleRef.close
    cases m.address with
    | none => rfl
    | some a =>
        dsimp only
        split <;> rfl
  rw [hc]
  exact ⟨rfl, rfl, rfl, rfl, rfl, rfl, rfl, rfl, rfl⟩

/-- C2: when the native parser signals failure (non-empty error buffer),
`parse_assembly` raises `IRParseError` carrying the native diagnostic,
returns no handle, and the partially constructed native module object has
been disposed before the error surfaces: the set of live module objects
(and cursors) is exactly what it was before the call. -/
theorem c2_parse_failure_disposes_module (tk : Toolkit) (s : NativeState)
    (t : String) (herr : (tk.parseResult t).2 ≠ "")
    (hfresh : s.hasLiveIterOn s.counter = false)
    (hmods : lookupA s.modules s.counter = none) :
    (parse_assembly tk s t).1 =
      .error (.irParseError ("LLVM IR parsing error\n" ++ (tk.parseResult t).2)) ∧
    (parse_assembly tk s t).2.modules = s.modules ∧
    (parse_assembly tk s t).2.iters = s.iters := by
  unfold parse_assembly
  cases hp : (tk.parseResult t).1 with
  | none =>
      simp only [hp]
      rw [if_neg herr]
      simp [ModuleRef.close]
  | some nm =>
      simp only [hp]
      rw [if_neg herr]
      have hiter :
          NativeState.hasLiveIterOn
            { s with modules := (s.counter, nm) :: s.modules,
                     counter := s.counter + 1 } s.counter = false := by
        simpa [NativeState.hasLiveIterOn] using hfresh
      simp only [ModuleRef.close, hiter]
      simp [removeA, removeA_of_lookupA_none s.modules s.counter hmods]

/-- Witness for C2 at a concrete failing parse. -/
theorem c2_parse_failure_disposes_module_witness :
    ((tkBadParse.parseResult "not valid ir").2 ≠ "" ∧
     NativeState.hasLiveIterOn stA stA.counter = false ∧
     lookupA stA.modules stA.counter = none) ∧
    ((parse_assembly tkBadParse stA "not valid ir").1 =
      .error (.irParseError
        ("LLVM IR parsing error\n" ++ (tkBadParse.parseResult "not valid ir").2)) ∧
     (parse_assembly tkBadParse stA "not valid ir").2.modules = stA.modules ∧
     (parse_assembly tkBadParse stA "not valid ir").2.iters = stA.iters) :=
  ⟨⟨by decide, by decide, by decide⟩,
   c2_parse_failure_disposes_module tkBadParse stA "not valid ir"
     (by decide) (by decide) (by decide)⟩

/-- C5: looking up a name with no matching symbol fails with
`SymbolNotFound` carrying that name, for both `get_function` and
`get_global_variable`; and every successful lookup is backed by an actual
symbol of the module (a null native pointer is never wrapped into a
`ValueRef`). -/
theorem c5_lookup_miss_symbol_not_found (s : NativeState) (m : ModuleRef)
    (a : Nat) (md : NativeModule) (nm : String)
    (hm : m.address = some a) (hmod : lookupA s.modules a = some md)
    (hf : nm ∉ md.functions) (hg : nm ∉ md.globals) :
    ModuleRef.get_function s m nm = .error (.symbolNotFound nm) ∧
    ModuleRef.get_global_variable s m nm = .error (.symbolNotFound nm) ∧
    (∀ (nm2 : String) (v : ValueRef), ModuleRef.get_function s m nm2 = .ok v →
      ∃ i, md.functions[i]? = some nm2 ∧ v = ⟨.funcPtr a i, m⟩) ∧
    (∀ (nm2 : String) (v : ValueRef),
      ModuleRef.get_global_variable s m nm2 = .ok v →
      ∃ i, md.globals[i]? = some nm2 ∧ v = ⟨.globalPtr a i, m⟩) := by
  have hcl : m.checkLive = .ok a := by simp [ModuleRef.checkLive, hm]
  refine ⟨?_, ?_, ?_, ?_⟩
  · simp [ModuleRef.get_function, hcl, hmod,
      findSym_none_of_not_mem md.functions nm hf]
  · simp [ModuleRef.get_global_variable, hcl, hmod,
      findSym_none_of_not_mem md.globals nm hg]
  · intro nm2 v hv
    simp only [ModuleRef.get_function, hcl, hmod] at hv
    cases hfi : findSym md.functions nm2 with
    | none => rw [hfi] at hv; exact absurd hv (by simp)
    | some i =>
        rw [hfi] at hv
        simp only [Except.ok.injEq] at hv
        exact ⟨i, findSym_some_mem md.functions nm2 i hfi, hv.symm⟩
  · intro nm2 v hv
    simp only [ModuleRef.get_global_variable, hcl, hmod] at hv
    cases hfi : findSym md.globals nm2 with
    | none => rw [hfi] at hv; exact absurd hv (by simp)
    | some i =>
        rw [hfi] at hv
        simp only [Except.ok.injEq] at hv
        exact ⟨i, findSym_some_mem md.globals nm2 i hfi, hv.symm⟩

/-- Witness for C5 at a concrete missing name. -/
theorem c5_lookup_miss_symbol_not_found_witness :
    (mrefA.address = some 0 ∧ lookupA stA.modules 0 = some mdlA ∧
     "missing" ∉ mdlA.functions ∧ "missing" ∉ mdlA.globals) ∧
    ModuleRef.get_function stA mrefA "missing" =
      .error (.symbolNotFound "missing") ∧
    ModuleRef.get_global_variable stA mrefA "missing" =
      .error (.symbolNotFound "missing") :=
  ⟨⟨by decide, by decide, by decide, by decide⟩,
   (c5_lookup_miss_symbol_not_found stA mrefA 0 mdlA "missing"
      (by decide) (by decide) (by decide) (by decide)).1,
   (c5_lookup_miss_symbol_not_found stA mrefA 0 mdlA "missing"
      (by decide) (by decide) (by decide) (by decide)).2.1⟩

/-- C6: `verify` fails with `VerificationError` carrying the verifier's
diagnostic exactly when the native verifier populates the output buffer,
and returns unit exactly when the buffer stays empty. -/
theorem c6_verify_iff_buffer_populated (tk : Toolkit) (s : NativeState)
    (m : ModuleRef) (a : Nat) (nm : NativeModule)
    (hm : m.address = some a) (hmod : lookupA s.modules a = some nm) :
    (ModuleRef.verify tk s m =
        .error (.verificationError (tk.verifyMsg nm)) ↔
      tk.verifyMsg nm ≠ "") ∧
    (ModuleRef.verify tk s m = .ok () ↔ tk.verifyMsg nm = "") := by
  have hcl : m.checkLive = .ok a := by simp [ModuleRef.checkLive, hm]
  by_cases hmsg : tk.verifyMsg nm = ""
  · simp [ModuleRef.verify, LLVMPY_VerifyModule, hcl, hmod, hmsg]
  · simp [ModuleRef.verify, LLVMPY_VerifyModule, hcl, hmod, hmsg]

/-- Witness for C6 on a failing verifier. -/
theorem c6_verify_iff_buffer_populated_witness :
    (mrefA.address = some 0 ∧ lookupA stA.modules 0 = some mdlA) ∧
    ModuleRef.verify tkBadVerify stA mrefA =
      .error (.verificationError (tkBadVerify.verifyMsg mdlA)) :=
  ⟨⟨by decide, by decide⟩,
   ((c6_verify_iff_buffer_populated tkBadVerify stA mrefA 0 mdlA
       (by decide) (by decide)).1).2 (by decide)⟩

/-- C7: setting `data_layout` (resp. `triple`) and then reading the same
accessor returns exactly the string written — including the empty string
— and the two fields round-trip independently. -/
theorem c7_layout_triple_roundtrip (s : NativeState) (m : ModuleRef)
    (a : Nat) (nm : NativeModule) (s1 s2 : String)
    (hm : m.address = some a) (hmod : lookupA s.modules a = some nm) :
    (ModuleRef.setDataLayout s m s1).1 = .ok () ∧
    ModuleRef.data_layout (ModuleRef.setDataLayout s m s1).2 m = .ok s1 ∧
    (ModuleRef.setTriple (ModuleRef.setDataLayout s m s1).2 m s2).1 =
      .ok () ∧
    ModuleRef.triple
      (ModuleRef.setTriple (ModuleRef.setDataLayout s m s1).2 m s2).2 m =
      .ok s2 ∧
    ModuleRef.data_layout
      (ModuleRef.setTriple (ModuleRef.setDataLayout s m s1).2 m s2).2 m =
      .ok s1 := by
  have hcl : m.checkLive = .ok a := by simp [ModuleRef.checkLive, hm]
  have h1 : ModuleRef.setDataLayout s m s1 =
      (.ok (),
       { s with
          modules := updateA s.modules a { nm with dataLayout := s1 } }) := by
    simp [ModuleRef.setDataLayout, hcl, hmod]
  have hmod1 : lookupA (updateA s.modules a { nm with dataLayout := s1 }) a =
      some { nm with dataLayout := s1 } :=
    lookupA_updateA_self s.modules a nm _ hmod
  have h2 : ModuleRef.setTriple (ModuleRef.setDataLayout s m s1).2 m s2 =
      (.ok (),
       { s with
          modules := updateA (updateA s.modules a
            { nm with dataLayout := s1 }) a
            { nm with dataLayout := s1, triple := s2 } }) := by
    rw [h1]
    simp [ModuleRef.setTriple, hcl, hmod1]
  have hmod2 : lookupA
      (updateA (updateA s.modules a { nm with dataLayout := s1 }) a
        { nm with dataLayout := s1, triple := s2 }) a =
      some { nm with dataLayout := s1, triple := s2 } :=
    lookupA_updateA_self _ a _ _ hmod1
  refine ⟨by rw [h1], ?_, by rw [h2], ?_, ?_⟩
  · rw [h1]; simp [ModuleRef.data_layout, hcl, hmod1]
  · rw [h2]; simp [ModuleRef.triple, hcl, hmod2]
  · rw [h2]; simp [ModuleRef.data_layout, hcl, hmod2]

/-- Witness for C7, exercising the empty string. -/
theorem c7_layout_triple_roundtrip_witness :
    (mrefA.address = some 0 ∧ lookupA stA.modules 0 = some mdlA) ∧
    ModuleRef.data_layout
      (ModuleRef.setTriple (ModuleRef.setDataLayout stA mrefA "").2 mrefA
        "wasm32").2 mrefA = .ok "" :=
  ⟨⟨by decide, by decide⟩,
   (c7_layout_triple_roundtrip stA mrefA 0 mdlA "" "wasm32"
      (by decide) (by decide)).2.2.2.2⟩

/-- C3: a successful `link_in(other, preserve=false)` consumes `other`:
the returned source handle is detached, every subsequent operation on it
fails with `UseAfterFree`, and the source's native module object is gone;
with `preserve=true` the call returns `other` unchanged, its native
object still live with its original contents, and every operation on it
still succeeds. -/
theorem c3_link_in_consumes_other_on_success (tk : Toolkit)
    (s : NativeState) (self other : ModuleRef) (da sa : Nat)
    (dm sm : NativeModule) (nm2 : String)
    (hd : self.address = some da) (ho : other.address = some sa)
    (hdm : lookupA s.modules da = some dm)
    (hsm : lookupA s.modules sa = some sm)
    (hne : sa ≠ da) (hok : tk.linkErr dm sm = none) :
    ((ModuleRef.link_in tk s self other false).1 = .ok ⟨none⟩ ∧
     lookupA (ModuleRef.link_in tk s self other false).2.modules sa = none ∧
     ModuleRef.verify tk (ModuleRef.link_in tk s self other false).2
       ⟨none⟩ = .error .useAfterFree ∧
     ModuleRef.get_function (ModuleRef.link_in tk s self other false).2
       ⟨none⟩ nm2 = .error .useAfterFree ∧
     ModuleRef.global_variables (ModuleRef.link_in tk s self other false).2
       ⟨none⟩ =
       (.error .useAfterFree, (ModuleRef.link_in tk s self other false).2) ∧
     ModuleRef.render tk (ModuleRef.link_in tk s self other false).2
       ⟨none⟩ = .error .useAfterFree) ∧
    ((ModuleRef.link_in tk s self other true).1 = .ok other ∧
     lookupA (ModuleRef.link_in tk s self other true).2.modules sa =
       some sm ∧
     ModuleRef.render tk (ModuleRef.link_in tk s self other true).2 other =
       .ok (tk.render sm) ∧
     ModuleRef.data_layout (ModuleRef.link_in tk s self other true).2
       other = .ok sm.dataLayout ∧
     ModuleRef.triple (ModuleRef.link_in tk s self other true).2 other =
       .ok sm.triple) := by
  have hcd : self.checkLive = .ok da := by simp [ModuleRef.checkLive, hd]
  have hco : other.checkLive = .ok sa := by simp [ModuleRef.checkLive, ho]
  have hlmF : link_modules tk s self other false =
      (.ok (),
       { s with
          modules := removeA (updateA s.modules da (tk.merge dm sm)) sa }) := by
    simp [link_modules, hcd, hco, hdm, hsm, hok]
  have hlmT : link_modules tk s self other true =
      (.ok (),
       { s with modules := updateA s.modules da (tk.merge dm sm) }) := by
    simp [link_modules, hcd, hco, hdm, hsm, hok]
  have hliF : ModuleRef.link_in tk s self other false =
      (.ok ⟨none⟩,
       { s with
          modules := removeA (updateA s.modules da (tk.merge dm sm)) sa }) := by
    simp [ModuleRef.link_in, hlmF, ModuleRef.detach]
  have hliT : ModuleRef.link_in tk s self other true =
      (.ok other,
       { s with modules := updateA s.modules da (tk.merge dm sm) }) := by
    simp [ModuleRef.link_in, hlmT]
  have hsmT : lookupA (updateA s.modules da (tk.merge dm sm)) sa = some sm := by
    rw [lookupA_updateA_ne s.modules da sa _ hne]
    exact hsm
  refine ⟨⟨?_, ?_, ?_, ?_, ?_, ?_⟩, ⟨?_, ?_, ?_, ?_, ?_⟩⟩
  · rw [hliF]
  · rw [hliF]
    exact lookupA_removeA_self _ sa
  · rw [hliF]; rfl
  · rw [hliF]; rfl
  · rw [hliF]; rfl
  · rw [hliF]; rfl
  · rw [hliT]
  · rw [hliT]
    exact hsmT
  · rw [hliT]
    simp [ModuleRef.render, hco, hsmT]
  · rw [hliT]
    simp [ModuleRef.data_layout, hco, hsmT]
  · rw [hliT]
    simp [ModuleRef.triple, hco, hsmT]

/-- Witness for C3 on two concrete live modules. -/
theorem c3_link_in_consumes_other_on_success_witness :
    (mrefA.address = some 0 ∧ mrefB.address = some 1 ∧
     lookupA stAB.modules 0 = some mdlA ∧
     lookupA stAB.modules 1 = some mdlB ∧ (1 : Nat) ≠ 0 ∧
     tkNeutral.linkErr mdlA mdlB = none) ∧
    (ModuleRef.link_in tkNeutral stAB mrefA mrefB false).1 = .ok ⟨none⟩ ∧
    lookupA (ModuleRef.link_in tkNeutral stAB mrefA mrefB false).2.modules
      1 = none ∧
    (ModuleRef.link_in tkNeutral stAB mrefA mrefB true).1 = .ok mrefB :=
  ⟨⟨by decide, by decide, by decide, by decide, by decide, by decide⟩,
   (c3_link_in_consumes_other_on_success tkNeutral stAB mrefA mrefB 0 1
      mdlA mdlB "f" (by decide) (by decide) (by decide) (by decide)
      (by decide) (by decide)).1.1,
   (c3_link_in_consumes_other_on_success tkNeutral stAB mrefA mrefB 0 1
      mdlA mdlB "f" (by decide) (by decide) (by decide) (by decide)
      (by decide) (by decide)).1.2.1,
   (c3_link_in_consumes_other_on_success tkNeutral stAB mrefA mrefB 0 1
      mdlA mdlB "f" (by decide) (by decide) (by decide) (by decide)
      (by decide) (by decide)).2.1⟩

/-- C10: when the native merge step fails, `link_in(other, preserve=false)`
raises without detaching `other`: the whole native state is exactly as
before the call and `other` is still a fully usable owning handle. -/
theorem c10_link_failure_leaves_other_valid (tk : Toolkit)
    (s : NativeState) (self other : ModuleRef) (da sa : Nat)
    (dm sm : NativeModule) (msg : String)
    (hd : self.address = some da) (ho : other.address = some sa)
    (hdm : lookupA s.modules da = some dm)
    (hsm : lookupA s.modules sa = some sm)
    (hfail : tk.linkErr dm sm = some msg) :
    ModuleRef.link_in tk s self other false =
      (.error (.nativeError msg), s) ∧
    ModuleRef.render tk s other = .ok (tk.render sm) ∧
    ModuleRef.data_layout s other = .ok sm.dataLayout := by
  have hcd : self.checkLive = .ok da := by simp [ModuleRef.checkLive, hd]
  have hco : other.checkLive = .ok sa := by simp [ModuleRef.checkLive, ho]
  have hlm : link_modules tk s self other false =
      (.error (.nativeError msg), s) := by
    simp [link_modules, hcd, hco, hdm, hsm, hfail]
  refine ⟨?_, ?_, ?_⟩
  · simp [ModuleRef.link_in, hlm]
  · simp [ModuleRef.render, hco, hsm]
  · simp [ModuleRef.data_layout, hco, hsm]

/-- Witness for C10 on a concrete failing link. -/
theorem c10_link_failure_leaves_other_valid_witness :
    (mrefA.address = some 0 ∧ mrefB.address = some 1 ∧
     lookupA stAB.modules 0 = some mdlA ∧
     lookupA stAB.modules 1 = some mdlB ∧
     tkBadLink.linkErr mdlA mdlB =
       some "linking global variables with mismatching types") ∧
    ModuleRef.link_in tkBadLink stAB mrefA mrefB false =
      (.error (.nativeError
        "linking global variables with mismatching types"), stAB) :=
  ⟨⟨by decide, by decide, by decide, by decide, by decide⟩,
   (c10_link_failure_leaves_other_valid tkBadLink stAB mrefA mrefB 0 1
      mdlA mdlB "linking global variables with mismatching types"
      (by decide) (by decide) (by decide) (by decide) (by decide)).1⟩

/-- C4: on a module with `n` global variables, `global_variables` hands
out a fresh cursor; draining it yields exactly `n` pairwise-distinct
`ValueRef`s and then the cursor reports end-of-sequence, every further
`next` also reporting end-of-sequence with no state change; requesting
`global_variables` again produces a fresh cursor at a different native
address whose drain yields the very same sequence, while the exhausted
first cursor stays exhausted (it is not reset). -/
theorem c4_global_variables_iteration (s : NativeState) (m : ModuleRef)
    (a n : Nat) (md : NativeModule)
    (hm : m.address = some a) (hmod : lookupA s.modules a = some md)
    (hn : md.globals.length = n) :
    ModuleRef.global_variables s m =
      (.ok ⟨some s.counter, m⟩,
       { s with iters := (s.counter, ⟨a, 0⟩) :: s.iters,
                counter := s.counter + 1 }) ∧
    drainIter
      { s with iters := (s.counter, ⟨a, 0⟩) :: s.iters,
               counter := s.counter + 1 }
      ⟨some s.counter, m⟩ n =
      (gvList m a 0 n,
       { s with iters := (s.counter, ⟨a, n⟩) :: s.iters,
                counter := s.counter + 1 }) ∧
    (gvList m a 0 n).length = n ∧
    (gvList m a 0 n).Nodup ∧
    GlobalsIterator.next
      { s with iters := (s.counter, ⟨a, n⟩) :: s.iters,
               counter := s.counter + 1 }
      ⟨some s.counter, m⟩ =
      (.ok none,
       { s with iters := (s.counter, ⟨a, n⟩) :: s.iters,
                counter := s.counter + 1 }) ∧
    ModuleRef.global_variables
      { s with iters := (s.counter, ⟨a, n⟩) :: s.iters,
               counter := s.counter + 1 } m =
      (.ok ⟨some (s.counter + 1), m⟩,
       { s with
          iters := (s.counter + 1, ⟨a, 0⟩) :: (s.counter, ⟨a, n⟩) :: s.iters,
          counter := s.counter + 1 + 1 }) ∧
    (some (s.counter + 1) : Option Nat) ≠ some s.counter ∧
    drainIter
      { s with
         iters := (s.counter + 1, ⟨a, 0⟩) :: (s.counter, ⟨a, n⟩) :: s.iters,
         counter := s.counter + 1 + 1 }
      ⟨some (s.counter + 1), m⟩ n =
      (gvList m a 0 n,
       { s with
          iters := (s.counter + 1, ⟨a, n⟩) :: (s.counter, ⟨a, n⟩) :: s.iters,
          counter := s.counter + 1 + 1 }) ∧
    GlobalsIterator.next
      { s with
         iters := (s.counter + 1, ⟨a, n⟩) :: (s.counter, ⟨a, n⟩) :: s.iters,
         counter := s.counter + 1 + 1 }
      ⟨some s.counter, m⟩ =
      (.ok none,
       { s with
          iters := (s.counter + 1, ⟨a, n⟩) :: (s.counter, ⟨a, n⟩) :: s.iters,
          counter := s.counter + 1 + 1 }) := by
  have hcl : m.checkLive = .ok a := by simp [ModuleRef.checkLive, hm]
  have hlen0 : (0 : Nat) + n = md.globals.length := by omega
  refine ⟨?_, ?_, gvList_length m a n 0, gvList_nodup m a n 0, ?_, ?_, ?_,
    ?_, ?_⟩
  · simp [ModuleRef.global_variables, hcl, hmod]
  · have h2 := drainIter_spec ⟨some s.counter, m⟩ s.counter a md rfl n 0
      { s with iters := (s.counter, ⟨a, 0⟩) :: s.iters,
               counter := s.counter + 1 }
      (by simp [lookupA]) hmod hlen0
    rw [h2]
    simp [updateA, hn]
  · simp [GlobalsIterator.next, lookupA, hmod, hn]
  · simp [ModuleRef.global_variables, hcl, hmod]
  · simp
  · have h3 := drainIter_spec ⟨some (s.counter + 1), m⟩ (s.counter + 1) a md
      rfl n 0
      { s with
         iters := (s.counter + 1, ⟨a, 0⟩) :: (s.counter, ⟨a, n⟩) :: s.iters,
         counter := s.counter + 1 + 1 }
      (by simp [lookupA]) hmod hlen0
    rw [h3]
    simp [updateA, hn]
  · have hne : ¬(s.counter + 1 = s.counter) := by omega
    simp [GlobalsIterator.next, lookupA, hne, hmod, hn]

/-- Witness for C4 on the three-global sample module. -/
theorem c4_global_variables_iteration_witness :
    (mrefA.address = some 0 ∧ lookupA stA.modules 0 = some mdlA ∧
     mdlA.globals.length = 3) ∧
    (gvList mrefA 0 0 3).length = 3 ∧ (gvList mrefA 0 0 3).Nodup :=
  ⟨⟨by decide, by decide, by decide⟩,
   (c4_global_variables_iteration stA mrefA 0 3 mdlA
      (by decide) (by decide) (by decide)).2.2.1,
   (c4_global_variables_iteration stA mrefA 0 3 mdlA
      (by decide) (by decide) (by decide)).2.2.2.1⟩

/-- C8: disposing a `ModuleRef` while a cursor borrowed from it is live
is deferred, never corrupting: the native module object stays allocated,
the cursor observes nothing, and the deferred disposal completes exactly
when the cursor is released; in the converse order (cursor first, module
second) both disposals are immediate and clean, module disposal thus
always being sequenced strictly after the disposal of every borrowing
cursor. -/
theorem c8_module_disposal_deferred_until_iterator_released
    (s : NativeState) (m : ModuleRef) (a : Nat) (md : NativeModule)
    (hm : m.address = some a) (hmod : lookupA s.modules a = some md)
    (hnoiter : s.hasLiveIterOn a = false)
    (hnopend : s.pending.contains a = false) :
    ModuleRef.global_variables s m =
      (.ok ⟨some s.counter, m⟩,
       { s with iters := (s.counter, ⟨a, 0⟩) :: s.iters,
                counter := s.counter + 1 }) ∧
    ModuleRef.close
      { s with iters := (s.counter, ⟨a, 0⟩) :: s.iters,
               counter := s.counter + 1 } m =
      ({ s with iters := (s.counter, ⟨a, 0⟩) :: s.iters,
                pending := a :: s.pending, counter := s.counter + 1 },
       ⟨none⟩) ∧
    lookupA
      { s with iters := (s.counter, ⟨a, 0⟩) :: s.iters,
               pending := a :: s.pending,
               counter := s.counter + 1 }.modules a = some md ∧
    (GlobalsIterator.next
       { s with iters := (s.counter, ⟨a, 0⟩) :: s.iters,
                pending := a :: s.pending, counter := s.counter + 1 }
       ⟨some s.counter, m⟩).1 =
      (GlobalsIterator.next
       { s with iters := (s.counter, ⟨a, 0⟩) :: s.iters,
                counter := s.counter + 1 }
       ⟨some s.counter, m⟩).1 ∧
    (∃ r, (GlobalsIterator.next
       { s with iters := (s.counter, ⟨a, 0⟩) :: s.iters,
                pending := a :: s.pending, counter := s.counter + 1 }
       ⟨some s.counter, m⟩).1 = .ok r) ∧
    GlobalsIterator.close
      { s with iters := (s.counter, ⟨a, 0⟩) :: s.iters,
               pending := a :: s.pending, counter := s.counter + 1 }
      ⟨some s.counter, m⟩ =
      ({ s with modules := removeA s.modules a,
                iters := removeA s.iters s.counter,
                pending := s.pending.filter (fun b => b != a),
                counter := s.counter + 1 },
       ⟨none, m⟩) ∧
    lookupA (removeA s.modules a) a = none ∧
    lookupA (removeA s.iters s.counter) s.counter = none ∧
    a ∉ s.pending.filter (fun b => b != a) ∧
    GlobalsIterator.close
      { s with iters := (s.counter, ⟨a, 0⟩) :: s.iters,
               counter := s.counter + 1 }
      ⟨some s.counter, m⟩ =
      ({ s with iters := removeA s.iters s.counter,
                counter := s.counter + 1 }, ⟨none, m⟩) ∧
    lookupA
      { s with iters := removeA s.iters s.counter,
               counter := s.counter + 1 }.modules a = some md ∧
    ModuleRef.close
      { s with iters := removeA s.iters s.counter,
               counter := s.counter + 1 } m =
      ({ s with modules := removeA s.modules a,
                iters := removeA s.iters s.counter,
                counter := s.counter + 1 }, ⟨none⟩) := by
  have hcl : m.checkLive = .ok a := by simp [ModuleRef.checkLive, hm]
  have hnoiter2 : s.iters.any (fun p => p.2.moduleAddr == a) = false := by
    simpa [NativeState.hasLiveIterOn] using hnoiter
  have hrem : (removeA s.iters s.counter).any
      (fun p => p.2.moduleAddr == a) = false :=
    any_removeA_false s.iters s.counter _ hnoiter2
  refine ⟨?_, ?_, hmod, ?_, ?_, ?_, lookupA_removeA_self s.modules a,
    lookupA_removeA_self s.iters s.counter, ?_, ?_, hmod, ?_⟩
  · simp [ModuleRef.global_variables, hcl, hmod]
  · simp [ModuleRef.close, hm, NativeState.hasLiveIterOn]
  · by_cases h0 : 0 < md.globals.length <;>
      simp [GlobalsIterator.next, lookupA, hmod, h0]
  · by_cases h0 : 0 < md.globals.length
    · exact ⟨some ⟨.globalPtr a 0, m⟩,
        by simp [GlobalsIterator.next, lookupA, hmod, h0]⟩
    · exact ⟨none, by simp [GlobalsIterator.next, lookupA, hmod, h0]⟩
  · simp [GlobalsIterator.close, lookupA, removeA,
      NativeState.hasLiveIterOn, hrem]
  · simp
  · have hnp : a ∉ s.pending := by simpa using hnopend
    simp [GlobalsIterator.close, lookupA, removeA,
      NativeState.hasLiveIterOn, hnopend]
    intro hmem
    exact absurd hmem hnp
  · simp [ModuleRef.close, hm, NativeState.hasLiveIterOn, hrem]

/-- Witness for C8 on the sample module. -/
theorem c8_module_disposal_deferred_until_iterator_released_witness :
    (mrefA.address = some 0 ∧ lookupA stA.modules 0 = some mdlA ∧
     stA.hasLiveIterOn 0 = false ∧ stA.pending.contains 0 = false) ∧
    ModuleRef.close
      { stA with iters := (stA.counter, ⟨0, 0⟩) :: stA.iters,
                 counter := stA.counter + 1 } mrefA =
      ({ stA with iters := (stA.counter, ⟨0, 0⟩) :: stA.iters,
                  pending := 0 :: stA.pending, counter := stA.counter + 1 },
       ⟨none⟩) :=
  ⟨⟨by decide, by decide, by decide, by decide⟩,
   (c8_module_disposal_deferred_until_iterator_released stA mrefA 0 mdlA
      (by decide) (by decide) (by decide) (by decide)).2.1⟩

/-- C9: parsing valid IR text yields a handle whose textual rendering,
fed back through `parse_assembly`, parses successfully and produces a
module whose native contents are identical to (semantically equivalent
to) the original's — given the toolkit's round-trip guarantee for the
parsed module's rendering. -/
theorem c9_render_reparse_roundtrip (tk : Toolkit) (s : NativeState)
    (t : String) (nm : NativeModule)
    (hparse : tk.parseResult t = (some nm, ""))
    (hround : tk.parseResult (tk.render nm) = (some nm, "")) :
    parse_assembly tk s t =
      (.ok ⟨some s.counter⟩,
       { s with modules := (s.counter, nm) :: s.modules,
                counter := s.counter + 1 }) ∧
    ModuleRef.render tk
      { s with modules := (s.counter, nm) :: s.modules,
               counter := s.counter + 1 }
      ⟨some s.counter⟩ = .ok (tk.render nm) ∧
    parse_assembly tk
      { s with modules := (s.counter, nm) :: s.modules,
               counter := s.counter + 1 }
      (tk.render nm) =
      (.ok ⟨some (s.counter + 1)⟩,
       { s with
          modules := (s.counter + 1, nm) :: (s.counter, nm) :: s.modules,
          counter := s.counter + 1 + 1 }) ∧
    lookupA ((s.counter + 1, nm) :: (s.counter, nm) :: s.modules)
      (s.counter + 1) = some nm ∧
    lookupA ((s.counter + 1, nm) :: (s.counter, nm) :: s.modules)
      s.counter = some nm := by
  have hne : ¬(s.counter + 1 = s.counter) := by omega
  refine ⟨?_, ?_, ?_, ?_, ?_⟩
  · simp [parse_assembly, hparse]
  · simp [ModuleRef.render, ModuleRef.checkLive, lookupA]
  · simp [parse_assembly, hround]
  · simp [lookupA]
  · simp [lookupA, hne]

/-- Witness for C9 on a concrete round-tripping toolkit. -/
theorem c9_render_reparse_roundtrip_witness :
    (tkNeutral.parseResult "define void @fa()" = (some mdlA, "") ∧
     tkNeutral.parseResult (tkNeutral.render mdlA) = (some mdlA, "")) ∧
    lookupA
      (parse_assembly tkNeutral
        (parse_assembly tkNeutral stA "define void @fa()").2
        (tkNeutral.render mdlA)).2.modules
      (parse_assembly tkNeutral stA "define void @fa()").2.counter =
      some mdlA :=
  ⟨⟨by decide, by decide⟩,
   (c9_render_reparse_roundtrip tkNeutral stA "define void @fa()" mdlA
      (by decide) (by decide)).2.2.2.1⟩

end LLMod
